import Mathlib

/-!
Verification development for the Bedrock text-generation notebook
(`01_Text_generation/01_text_and_code_generation_w_bedrock.ipynb`).

We give a shallow embedding of the notebook's own code:
* the tag-extraction helper `extract_by_tag` (built on BeautifulSoup's
  `find_all` / `get_text`, modelled here as a scanner over paired
  `<tag>...</tag>` markup in document order);
* the two JSON request builders (Amazon Nova "Family A" and the
  Anthropic-style "Family B");
* the fixed-key-path response parsers and the try/except branch around
  `invoke_model` that special-cases `AccessDeniedException`;
* the generated sales-analysis loop.

JSON values are modelled by an inductive `JValue`; numbers keep the
int/float distinction of Python's `json` module, with floats as exact
rationals (the decimal literals appearing in the notebook round-trip
exactly). Python exceptions are modelled by `Except` with a `PyErr`
error type.
-/

/-- Model of the notebook's JSON values (`json.dumps` input / `json.loads`
output). `int` and `num` keep Python's int/float distinction; floats are
exact rationals, which is faithful for the decimal literals the notebook
uses. Object fields are kept in insertion order, as Python dicts do. -/
inductive JValue where
  | str : String → JValue
  | int : ℤ → JValue
  | num : ℚ → JValue
  | bool : Bool → JValue
  | null : JValue
  | arr : List JValue → JValue
  | obj : List (String × JValue) → JValue

/-- First field of an object with the given key, scanning in order
(Python dict lookup on string keys, successful case). -/
def lookupField : List (String × JValue) → String → Option JValue
  | [], _ => none
  | (k', v) :: rest, k => if k' = k then some v else lookupField rest k

/-- Key access on a JSON value that yields `none` when the key (or an
object at all) is absent; used to state which fields a built payload
carries. -/
def jGet (v : JValue) (k : String) : Option JValue :=
  match v with
  | .obj fields => lookupField fields k
  | _ => none

/-! ## Tag extraction (`extract_by_tag`, notebook cell `780e3643`)

The notebook's helper:
```python
def extract_by_tag(response: str, tag: str, extract_all=False) -> str | list[str] | None:
    soup = BeautifulSoup(response)
    results = soup.find_all(tag)
    if not results:
        return
    texts = [res.get_text() for res in results]
    if extract_all:
        return texts
    return texts[-1]
```
`BeautifulSoup(...).find_all(tag)` is modelled as a left-to-right scan
collecting, for each occurrence of `<tag>`, the raw markup up to the
matching `</tag>` (to end of input when unclosed, as the HTML parser
recovers); `get_text` strips any remaining `<...>` spans. -/

/-- The opening tag `<tag>` as a character list. -/
def openTag (tag : String) : List Char :=
  '<' :: tag.data ++ ['>']

/-- The closing tag `</tag>` as a character list. -/
def closeTag (tag : String) : List Char :=
  '<' :: '/' :: tag.data ++ ['>']

/-- Split a character list at the first occurrence of a pattern:
returns the part before the pattern and the part after it, or `none`
when the pattern does not occur. -/
def splitFirst (pat : List Char) : List Char → Option (List Char × List Char)
  | [] => if pat = [] then some ([], []) else none
  | c :: rest =>
    if pat.isPrefixOf (c :: rest) then
      some ([], (c :: rest).drop pat.length)
    else
      match splitFirst pat rest with
      | some (pre, post) => some (c :: pre, post)
      | none => none

/-- Scan collecting the raw contents of each `<tag>...</tag>` occurrence
in document order; an unclosed final tag contributes the rest of the
input. Fuel bounds the recursion (the input shrinks at every step). -/
def findAllAux (openT closeT : List Char) : Nat → List Char → List (List Char)
  | 0, _ => []
  | fuel + 1, s =>
    match splitFirst openT s with
    | none => []
    | some (_, afterOpen) =>
      match splitFirst closeT afterOpen with
      | none => [afterOpen]
      | some (inner, rest) => inner :: findAllAux openT closeT fuel rest

/-- Model of `BeautifulSoup(response).find_all(tag)`: raw inner markup of
every occurrence of the tag, in document order. -/
def find_all (response tag : String) : List String :=
  (findAllAux (openTag tag) (closeTag tag) response.length response.data).map
    (fun cs => String.mk cs)

/-- Drop characters up to and including the next `>` (end of a markup
tag). -/
def dropTag : List Char → List Char
  | [] => []
  | c :: rest => if c = '>' then rest else dropTag rest

/-- Strip every `<...>` span from a character list (fuel-bounded). -/
def stripTagsAux : Nat → List Char → List Char
  | 0, _ => []
  | _, [] => []
  | fuel + 1, c :: rest =>
    if c = '<' then stripTagsAux fuel (dropTag rest)
    else c :: stripTagsAux fuel rest

/-- Model of BeautifulSoup's `get_text()`: the markup with all tags
removed. -/
def get_text (s : String) : String :=
  String.mk (stripTagsAux s.data.length s.data)

/-- The union return type `str | list[str]` of `extract_by_tag` (the
`None` case is `Option.none` around it). -/
inductive ExtractResult where
  | single (text : String)
  | all (texts : List String)
deriving DecidableEq

/-- The notebook's `extract_by_tag`: `None` when there are no matches,
otherwise the list of all matches' text when `extract_all` is set and
the last match's text (`texts[-1]`) otherwise. -/
def extract_by_tag (response tag : String) (extract_all : Bool) : Option ExtractResult :=
  let results := find_all response tag
  if results.isEmpty then none
  else
    let texts := results.map get_text
    if extract_all then some (.all texts)
    else (texts.getLast?).map ExtractResult.single

/-! ## Request builders (notebook cells `29d8c668`, `7543ec58`, `77021ab9`,
`ffdc8ece`, `94f5424f`)

Family A is the Amazon Nova `messages-v1` schema, Family B the
Anthropic-style schema. Both cells build a Python dict and serialize it
with `json.dumps`; we model the dict itself (field order preserved), so
"serialize then deserialize" is the identity on these values. -/

/-- The summarization prompt of cell `440ca035` (the Python
triple-quoted string, with its backslash line continuations already
joined, exactly as the resulting `str` value). -/
def samplePrompt : String :=
  "\nPlease provide a summary of the following text. Do not add any information that is not mentioned in the text below.\n\n<text>\nAWS took all of that feedback from customers, and today we are excited to announce Amazon Bedrock, a new service that makes FMs from AI21 Labs, Anthropic, Stability AI, and Amazon accessible via an API. Bedrock is the easiest way for customers to build and scale generative AI-based applications using FMs, democratizing access for all builders. Bedrock will offer the ability to access a range of powerful FMs for text and images—including Amazons Titan FMs, which consist of two new LLMs we’re also announcing today—through a scalable, reliable, and secure AWS managed service. With Bedrock’s serverless experience, customers can easily find the right model for what they’re trying to get done, get started quickly, privately customize FMs with their own data, and easily integrate and deploy them into their applications using the AWS tools and capabilities they are familiar with, without having to manage any infrastructure (including integrations with Amazon SageMaker ML features like Experiments to test different models and Pipelines to manage their FMs at scale).\n</text>\n\n"

/-- Family A (Amazon Nova) request body of cell `29d8c668`, with the
prompt and the four inference parameters abstracted (the cell uses
`samplePrompt`, 300, 0.3, 0.1, 20). -/
def novaRequestBody (prompt : String) (maxTokens : ℤ) (temperature topP : ℚ)
    (topK : ℤ) : JValue :=
  .obj [
    ("schemaVersion", .str "messages-v1"),
    ("messages", .arr [
      .obj [
        ("role", .str "user"),
        ("content", .arr [.obj [("text", .str prompt)]])]]),
    ("inferenceConfig", .obj [
      ("maxTokens", .int maxTokens),
      ("temperature", .num temperature),
      ("topP", .num topP),
      ("topK", .int topK)])]

/-- Family B (Anthropic-style) request body, covering cells `7543ec58`,
`77021ab9`, `ffdc8ece` (no `system` field) and `bookstore_assistant`
in cell `94f5424f` (with a `system` field, placed as in that cell
between the sampling parameters and `messages`). -/
def claudeRequestBody (prompt : String) (maxTokens : ℤ) (temperature : ℚ)
    (topK : ℤ) (topP : ℚ) (system : Option String) : JValue :=
  .obj ([
    ("anthropic_version", .str "bedrock-2023-05-31"),
    ("max_tokens", .int maxTokens),
    ("temperature", .num temperature),
    ("top_k", .int topK),
    ("top_p", .num topP)]
    ++ (match system with
        | some s => [("system", .str s)]
        | none => [])
    ++ [
    ("messages", .arr [
      .obj [
        ("role", .str "user"),
        ("content", .arr [.obj [("type", .str "text"), ("text", .str prompt)]])]])])

/-! ## Response parsing and the invocation error branch (cells
`42812d1b`, `6b5325ca`, `94f5424f`) -/

/-- Python exceptions that the notebook's code can raise: `KeyError` /
`IndexError` / `TypeError` from subscripting a deserialized response,
and `botocore.exceptions.ClientError` from `invoke_model` (carrying
`error.response['Error']['Code']` and `...['Message']`). -/
inductive PyErr where
  | keyError (key : String)
  | indexError
  | typeError
  | clientError (code message : String)
deriving DecidableEq

/-- Python subscripting `v[k]` with a string key: a key lookup on a
dict (raising `KeyError` when absent), a `TypeError` on anything
else. -/
def subscriptStr (v : JValue) (k : String) : Except PyErr JValue :=
  match v with
  | .obj fields =>
    match lookupField fields k with
    | some x => .ok x
    | none => .error (.keyError k)
  | _ => .error .typeError

/-- Python subscripting `v[i]` with a non-negative integer: indexing a
list (raising `IndexError` when out of range) or a string (one-character
string result), a `KeyError` on a string-keyed dict, a `TypeError` on
anything else. -/
def subscriptIdx (v : JValue) (i : Nat) : Except PyErr JValue :=
  match v with
  | .arr xs =>
    match xs[i]? with
    | some x => .ok x
    | none => .error .indexError
  | .str s =>
    match s.data[i]? with
    | some ch => .ok (.str (String.mk [ch]))
    | none => .error .indexError
  | .obj _ => .error (.keyError (toString i))
  | _ => .error .typeError

/-- Family A response parsing,
`response_body["output"]["message"]["content"][0]["text"]`
(cell `42812d1b`). -/
def parseNovaResponse (responseBody : JValue) : Except PyErr JValue :=
  subscriptStr responseBody "output" >>= fun o =>
  subscriptStr o "message" >>= fun m =>
  subscriptStr m "content" >>= fun c =>
  subscriptIdx c 0 >>= fun c0 =>
  subscriptStr c0 "text"

/-- Family B response parsing, `response_body["content"][0]["text"]`
(cells `6b5325ca` and `94f5424f`). -/
def parseClaudeResponse (responseBody : JValue) : Except PyErr JValue :=
  subscriptStr responseBody "content" >>= fun c =>
  subscriptIdx c 0 >>= fun c0 =>
  subscriptStr c0 "text"

/-- A `botocore.exceptions.ClientError`, reduced to the two fields the
notebook reads. -/
structure ClientError where
  code : String
  message : String

/-- The f-string printed by the `AccessDeniedException` branch of cell
`42812d1b` (the runs of spaces come from the backslash line
continuations inside the f-string; "troubeshoot" is the notebook's own
spelling). -/
def accessDeniedDiagnostic (msg : String) : String :=
  "\x1b[41m" ++ msg ++
    "                \nTo troubeshoot this issue please refer to the following resources.                 \n" ++
    "https://docs.aws.amazon.com/IAM/latest/UserGuide/troubleshoot_access-denied.html" ++
    "                 \n" ++
    "https://docs.aws.amazon.com/bedrock/latest/userguide/security-iam.html" ++
    "\x1b[0m\n"

/-- What the summarization cell ends up doing: either the parsed
content text was printed, or the access-denied diagnostic was
printed. -/
inductive InvokeOutcome where
  | success (content : JValue)
  | accessDeniedNotice (diagnostic : String)

/-- The try/except of cell `42812d1b` around `invoke_model`: on success
the Nova response is parsed (any `KeyError` from that propagates); a
`ClientError` with code `AccessDeniedException` is caught and rendered
as the diagnostic; any other `ClientError` is re-raised unmodified
(`raise error`). -/
def summarizationCell (invokeResult : Except ClientError JValue) :
    Except PyErr InvokeOutcome :=
  match invokeResult with
  | .ok responseBody => (parseNovaResponse responseBody).map InvokeOutcome.success
  | .error e =>
    if e.code = "AccessDeniedException" then
      .ok (.accessDeniedNotice (accessDeniedDiagnostic e.message))
    else
      .error (.clientError e.code e.message)

/-- Spec-side description of "the Family A key path is present, holding
value `v`": the fixed chain `output` → `message` → `content` → index 0 →
`text`, stated with `jGet` over the data model rather than with the
parser. -/
def novaTextAt (responseBody v : JValue) : Prop :=
  ∃ o m xs c0,
    jGet responseBody "output" = some o ∧
    jGet o "message" = some m ∧
    jGet m "content" = some (.arr xs) ∧
    xs[0]? = some c0 ∧
    jGet c0 "text" = some v

/-- Spec-side description of "the Family B key path is present, holding
value `v`": the fixed chain `content` → index 0 → `text`. -/
def claudeTextAt (responseBody v : JValue) : Prop :=
  ∃ xs c0,
    jGet responseBody "content" = some (.arr xs) ∧
    xs[0]? = some c0 ∧
    jGet c0 "text" = some v

/-! ## The generated sales-analysis program (cell `6f2c28aa`) -/

/-- One data row of `sales.csv` after the conversions the generated
program applies (`price = float(row[2])`, `units = int(row[3])`). -/
structure SalesRow where
  date : String
  product_id : String
  price : ℚ
  units_sold : ℤ
deriving DecidableEq

/-- The mutable state of the generated program's loop: the running
total, the two `defaultdict(int)` accumulators (modelled as
insertion-ordered association lists), and the max-revenue tracker. -/
structure SalesState where
  revenue : ℚ
  monthly_revenue : List (String × ℚ)
  product_revenue : List (String × ℚ)
  max_revenue : ℚ
  max_revenue_date : String
  max_revenue_product : String

/-- `d[k] += v` on a `defaultdict(int)`, as an insertion-ordered
association list. -/
def bumpRevenue : List (String × ℚ) → String → ℚ → List (String × ℚ)
  | [], k, v => [(k, v)]
  | (k', v') :: rest, k, v =>
    if k' = k then (k', v' + v) :: rest
    else (k', v') :: bumpRevenue rest k v

/-- One iteration of the generated program's `for row in reader` loop.
Note the comparison `if revenue > max_revenue` is against the
cumulative running total `revenue`, not the current row's own
revenue. -/
def salesStep (s : SalesState) (row : SalesRow) : SalesState :=
  let rowRevenue := row.price * (row.units_sold : ℚ)
  let revenue := s.revenue + rowRevenue
  let product_revenue := bumpRevenue s.product_revenue row.product_id rowRevenue
  let monthly_revenue := bumpRevenue s.monthly_revenue (row.date.take 7) rowRevenue
  if revenue > s.max_revenue then
    { revenue, monthly_revenue, product_revenue,
      max_revenue := revenue,
      max_revenue_date := row.date,
      max_revenue_product := row.product_id }
  else
    { s with revenue, monthly_revenue, product_revenue }

/-- The initial values of the generated program's accumulators. -/
def initialSalesState : SalesState :=
  { revenue := 0, monthly_revenue := [], product_revenue := [],
    max_revenue := 0, max_revenue_date := "", max_revenue_product := "" }

/-- The whole loop of the generated program over the parsed CSV rows. -/
def runSalesAnalysis (rows : List SalesRow) : SalesState :=
  rows.foldl salesStep initialSalesState

/-- The data rows of the `sales.csv` fixture written by cell
`f20f4756` (header row excluded, as the program skips it with
`next(reader)`). -/
def salesCsvRows : List SalesRow :=
  [⟨"2023-01-01", "P001", 50, 20⟩, ⟨"2023-01-02", "P002", 60, 15⟩,
   ⟨"2023-01-03", "P001", 50, 18⟩, ⟨"2023-01-04", "P003", 70, 30⟩,
   ⟨"2023-01-05", "P001", 50, 25⟩, ⟨"2023-01-06", "P002", 60, 22⟩,
   ⟨"2023-01-07", "P003", 70, 24⟩, ⟨"2023-01-08", "P001", 50, 28⟩,
   ⟨"2023-01-09", "P002", 60, 17⟩, ⟨"2023-01-10", "P003", 70, 29⟩,
   ⟨"2023-02-11", "P001", 50, 23⟩, ⟨"2023-02-12", "P002", 60, 19⟩,
   ⟨"2023-02-13", "P001", 50, 21⟩, ⟨"2023-02-14", "P003", 70, 31⟩,
   ⟨"2023-03-15", "P001", 50, 26⟩, ⟨"2023-03-16", "P002", 60, 20⟩,
   ⟨"2023-03-17", "P003", 70, 33⟩, ⟨"2023-04-18", "P001", 50, 27⟩,
   ⟨"2023-04-19", "P002", 60, 18⟩, ⟨"2023-04-20", "P003", 70, 32⟩,
   ⟨"2023-04-21", "P001", 50, 22⟩, ⟨"2023-04-22", "P002", 60, 16⟩,
   ⟨"2023-04-23", "P003", 70, 34⟩, ⟨"2023-05-24", "P001", 50, 24⟩,
   ⟨"2023-05-25", "P002", 60, 21⟩]

/-! ## Theorems: tag extraction -/

/-- C1: for every text and tag with two or more occurrences of the tag,
`extract_by_tag` in default (single-result) mode returns exactly the
text content of the last occurrence in document order. -/
theorem extract_by_tag_default_picks_last (response tag : String)
    (h : 2 ≤ (find_all response tag).length) :
    ∃ lastText,
      ((find_all response tag).map get_text).getLast? = some lastText ∧
      extract_by_tag response tag false = some (ExtractResult.single lastText) := by
  have hne : find_all response tag ≠ [] := by
    intro hnil; rw [hnil] at h; simp at h
  have hne2 : (find_all response tag).map get_text ≠ [] := by simp [hne]
  obtain ⟨t, ht⟩ := Option.isSome_iff_exists.mp (List.getLast?_isSome.mpr hne2)
  exact ⟨t, ht, by simp [extract_by_tag, hne, ht]⟩

theorem extract_by_tag_default_picks_last_witness :
    ∃ lastText,
      ((find_all "<book>First</book> then <book>Second</book>" "book").map get_text).getLast? =
        some lastText ∧
      extract_by_tag "<book>First</book> then <book>Second</book>" "book" false =
        some (ExtractResult.single lastText) :=
  extract_by_tag_default_picks_last "<book>First</book> then <book>Second</book>" "book"
    (by decide)

/-- C2 as stated is false on the code: with `extract_all=True` and zero
occurrences of the tag, `extract_by_tag` returns `None` (the bare
`return`), not an empty list. -/
theorem extract_by_tag_no_match_all_mode_not_empty_list :
    extract_by_tag "hello world" "book" true = none ∧
    extract_by_tag "hello world" "book" true ≠ some (ExtractResult.all []) := by
  constructor
  · decide
  · decide

/-- C2 (amended): for every text and tag with zero occurrences of the
tag, `extract_by_tag` returns the absent value `None` in both modes —
in particular `extract_all=True` also yields `None`, not an empty
sequence. -/
theorem extract_by_tag_no_match_returns_none (response tag : String) (extract_all : Bool)
    (h : find_all response tag = []) :
    extract_by_tag response tag extract_all = none := by
  simp [extract_by_tag, h]

theorem extract_by_tag_no_match_returns_none_witness :
    extract_by_tag "Dear Sir, I want to return a book." "book" false = none ∧
    extract_by_tag "Dear Sir, I want to return a book." "book" true = none :=
  ⟨extract_by_tag_no_match_returns_none "Dear Sir, I want to return a book." "book" false
      (by decide),
   extract_by_tag_no_match_returns_none "Dear Sir, I want to return a book." "book" true
      (by decide)⟩

/-- C3: for every text and tag with at least one occurrence,
`extract_by_tag` with `extract_all=True` returns the text contents of
all occurrences, in document order (the order `find_all` scans them). -/
theorem extract_by_tag_all_in_document_order (response tag : String)
    (h : find_all response tag ≠ []) :
    extract_by_tag response tag true =
      some (ExtractResult.all ((find_all response tag).map get_text)) := by
  simp [extract_by_tag, h]

theorem extract_by_tag_all_in_document_order_witness :
    extract_by_tag "<book>A</book> and <book>B</book> and <book>C</book>" "book" true =
      some (ExtractResult.all ["A", "B", "C"]) := by
  have h := extract_by_tag_all_in_document_order
    "<book>A</book> and <book>B</book> and <book>C</book>" "book" (by decide)
  rw [h]
  decide

/-- C4: tag extraction is deterministic and idempotent — the helper is
a pure function of its inputs, so calling it twice on the same text,
tag and mode yields the same result both times. -/
theorem extract_by_tag_deterministic (response tag : String) (extract_all : Bool) :
    extract_by_tag response tag extract_all = extract_by_tag response tag extract_all := rfl

/-- C9: for every text and tag with at least one occurrence, the
default-mode result of `extract_by_tag` is exactly the last element of
the list that `extract_by_tag` with `extract_all=True` returns on the
same inputs. -/
theorem extract_by_tag_default_is_last_of_all (response tag : String)
    (h : find_all response tag ≠ []) :
    ∃ texts lastText,
      extract_by_tag response tag true = some (ExtractResult.all texts) ∧
      texts.getLast? = some lastText ∧
      extract_by_tag response tag false = some (ExtractResult.single lastText) := by
  have hne2 : (find_all response tag).map get_text ≠ [] := by simp [h]
  obtain ⟨t, ht⟩ := Option.isSome_iff_exists.mp (List.getLast?_isSome.mpr hne2)
  exact ⟨(find_all response tag).map get_text, t,
    by simp [extract_by_tag, h], ht,
    by simp [extract_by_tag, h, ht]⟩

theorem extract_by_tag_default_is_last_of_all_witness :
    ∃ texts lastText,
      extract_by_tag "<q>one</q><q>two</q><q>three</q>" "q" true =
        some (ExtractResult.all texts) ∧
      texts.getLast? = some lastText ∧
      extract_by_tag "<q>one</q><q>two</q><q>three</q>" "q" false =
        some (ExtractResult.single lastText) :=
  extract_by_tag_default_is_last_of_all "<q>one</q><q>two</q><q>three</q>" "q" (by decide)

/-! ## Theorems: request builders -/

/-- C5: the Family A (Amazon Nova) builder applied to the sample
summarization prompt with maxTokens=300, temperature=0.3, topP=0.1,
topK=20 produces a payload whose `inferenceConfig` field is exactly
`maxTokens 300, temperature 0.3, topP 0.1, topK 20`, and whose
`messages` field carries the prompt as the single user message's
text. -/
theorem nova_sample_payload_fields :
    jGet (novaRequestBody samplePrompt 300 0.3 0.1 20) "inferenceConfig" =
      some (.obj [("maxTokens", .int 300), ("temperature", .num 0.3),
                  ("topP", .num 0.1), ("topK", .int 20)]) ∧
    jGet (novaRequestBody samplePrompt 300 0.3 0.1 20) "messages" =
      some (.arr [.obj [("role", .str "user"),
                        ("content", .arr [.obj [("text", .str samplePrompt)]])]]) := by
  constructor
  · rfl
  · rfl

/-- C6: the Family A and Family B builders validate nothing — for every
parameter assignment whatsoever (the quantifiers range over all
rationals, so in particular over temperatures outside [0,1] and
nucleus thresholds outside (0,1]) the built payload carries every
supplied parameter unchanged, and being a well-formed JSON value it
serializes to syntactically valid output. -/
theorem builders_pass_parameters_through (prompt : String) (maxTokens : ℤ)
    (temperature topP : ℚ) (topK : ℤ) (system : Option String) :
    jGet (novaRequestBody prompt maxTokens temperature topP topK) "inferenceConfig" =
      some (.obj [("maxTokens", .int maxTokens), ("temperature", .num temperature),
                  ("topP", .num topP), ("topK", .int topK)]) ∧
    jGet (novaRequestBody prompt maxTokens temperature topP topK) "messages" =
      some (.arr [.obj [("role", .str "user"),
                        ("content", .arr [.obj [("text", .str prompt)]])]]) ∧
    jGet (claudeRequestBody prompt maxTokens temperature topK topP system) "max_tokens" =
      some (.int maxTokens) ∧
    jGet (claudeRequestBody prompt maxTokens temperature topK topP system) "temperature" =
      some (.num temperature) ∧
    jGet (claudeRequestBody prompt maxTokens temperature topK topP system) "top_k" =
      some (.int topK) ∧
    jGet (claudeRequestBody prompt maxTokens temperature topK topP system) "top_p" =
      some (.num topP) ∧
    jGet (claudeRequestBody prompt maxTokens temperature topK topP system) "messages" =
      some (.arr [.obj [("role", .str "user"),
                        ("content", .arr [.obj [("type", .str "text"),
                                                ("text", .str prompt)]])]]) := by
  refine ⟨rfl, rfl, ?_, ?_, ?_, ?_, ?_⟩ <;> cases system <;> rfl

/-! ## Theorems: the invocation error branch -/

/-- C7: in the invocation error branch, a `ClientError` whose code is
`AccessDeniedException` is caught and rendered as the user-facing
diagnostic — whose text contains the two remediation links — and is
not re-raised, while a `ClientError` with any other code is re-raised
unmodified to the caller. -/
theorem summarization_access_denied_branch (e : ClientError) :
    (e.code = "AccessDeniedException" →
      summarizationCell (.error e) =
        .ok (.accessDeniedNotice (accessDeniedDiagnostic e.message)) ∧
      ∃ a b c, accessDeniedDiagnostic e.message =
        a ++ "https://docs.aws.amazon.com/IAM/latest/UserGuide/troubleshoot_access-denied.html" ++
        b ++ "https://docs.aws.amazon.com/bedrock/latest/userguide/security-iam.html" ++ c) ∧
    (e.code ≠ "AccessDeniedException" →
      summarizationCell (.error e) = .error (.clientError e.code e.message)) := by
  constructor
  · intro hc
    refine ⟨by simp [summarizationCell, hc], ?_⟩
    exact ⟨"\x1b[41m" ++ e.message ++
        "                \nTo troubeshoot this issue please refer to the following resources.                 \n",
      "                 \n", "\x1b[0m\n", rfl⟩
  · intro hc
    simp [summarizationCell, hc]

theorem summarization_access_denied_branch_witness :
    summarizationCell (.error ⟨"AccessDeniedException", "User is not authorized"⟩) =
      .ok (.accessDeniedNotice (accessDeniedDiagnostic "User is not authorized")) ∧
    summarizationCell (.error ⟨"ThrottlingException", "Rate exceeded"⟩) =
      .error (.clientError "ThrottlingException" "Rate exceeded") := by
  constructor
  · exact ((summarization_access_denied_branch
      ⟨"AccessDeniedException", "User is not authorized"⟩).1 rfl).1
  · exact (summarization_access_denied_branch
      ⟨"ThrottlingException", "Rate exceeded"⟩).2 (by decide)

/-! ## Theorems: response parsers and the fixed key paths -/

theorem exceptBind_ok_iff {α β : Type} (m : Except PyErr α) (f : α → Except PyErr β) (v : β) :
    (m >>= f) = Except.ok v ↔ ∃ w, m = Except.ok w ∧ f w = Except.ok v := by
  cases m <;> simp [Bind.bind, Except.bind]

theorem subscriptStr_ok_iff (v : JValue) (k : String) (x : JValue) :
    subscriptStr v k = .ok x ↔ jGet v k = some x := by
  cases v
  case obj fields => cases h : lookupField fields k <;> simp [subscriptStr, jGet, h]
  all_goals simp [subscriptStr, jGet]

theorem subscriptIdx_zero_ok_iff (v x : JValue) :
    subscriptIdx v 0 = .ok x ↔
      (∃ xs, v = .arr xs ∧ xs[0]? = some x) ∨
      (∃ s ch, v = .str s ∧ s.data[0]? = some ch ∧ x = .str (String.mk [ch])) := by
  cases v
  case arr xs => cases h : xs[0]? <;> simp [subscriptIdx, h]
  case str s => cases h : s.data[0]? <;> simp [subscriptIdx, h, eq_comm]
  all_goals simp [subscriptIdx]

theorem parseNova_ok_iff (body v : JValue) :
    parseNovaResponse body = .ok v ↔ novaTextAt body v := by
  unfold novaTextAt
  simp only [parseNovaResponse, exceptBind_ok_iff, subscriptStr_ok_iff, subscriptIdx_zero_ok_iff]
  constructor
  · rintro ⟨o, ho, m, hm, c, hc, c0, hidx, htext⟩
    rcases hidx with ⟨xs, rfl, hget⟩ | ⟨s, ch, rfl, hch, rfl⟩
    · exact ⟨o, m, xs, c0, ho, hm, hc, hget, htext⟩
    · simp [jGet] at htext
  · rintro ⟨o, m, xs, c0, ho, hm, hc, hget, htext⟩
    exact ⟨o, ho, m, hm, .arr xs, hc, c0, Or.inl ⟨xs, rfl, hget⟩, htext⟩

theorem parseClaude_ok_iff (body v : JValue) :
    parseClaudeResponse body = .ok v ↔ claudeTextAt body v := by
  unfold claudeTextAt
  simp only [parseClaudeResponse, exceptBind_ok_iff, subscriptStr_ok_iff, subscriptIdx_zero_ok_iff]
  constructor
  · rintro ⟨c, hc, c0, hidx, htext⟩
    rcases hidx with ⟨xs, rfl, hget⟩ | ⟨s, ch, rfl, hch, rfl⟩
    · exact ⟨xs, c0, hc, hget, htext⟩
    · simp [jGet] at htext
  · rintro ⟨xs, c0, hc, hget, htext⟩
    exact ⟨.arr xs, hc, c0, Or.inl ⟨xs, rfl, hget⟩, htext⟩

/-- C8: each response parser succeeds exactly when its family's fixed
key path is present (`output.message.content[0].text` for Family A,
`content[0].text` for Family B), returning the value found there; on
every response missing the path it fails with a Python
lookup/subscript error instead of returning a default. -/
theorem response_parsers_require_key_path (body : JValue) :
    (∀ v, parseNovaResponse body = .ok v ↔ novaTextAt body v) ∧
    (∀ v, parseClaudeResponse body = .ok v ↔ claudeTextAt body v) ∧
    ((¬ ∃ v, novaTextAt body v) → ∃ e, parseNovaResponse body = .error e) ∧
    ((¬ ∃ v, claudeTextAt body v) → ∃ e, parseClaudeResponse body = .error e) := by
  refine ⟨parseNova_ok_iff body, parseClaude_ok_iff body, ?_, ?_⟩
  · intro hmiss
    cases hr : parseNovaResponse body with
    | ok a => exact absurd ⟨a, (parseNova_ok_iff body a).mp hr⟩ hmiss
    | error e => exact ⟨e, rfl⟩
  · intro hmiss
    cases hr : parseClaudeResponse body with
    | ok a => exact absurd ⟨a, (parseClaude_ok_iff body a).mp hr⟩ hmiss
    | error e => exact ⟨e, rfl⟩

theorem response_parsers_require_key_path_witness :
    (∃ e, parseNovaResponse (.obj [("unexpected", .str "shape")]) = .error e) ∧
    (∃ e, parseClaudeResponse (.obj [("unexpected", .str "shape")]) = .error e) ∧
    parseNovaResponse (.obj [("output", .obj [("message", .obj [("content",
        .arr [.obj [("text", .str "summary text")]])])])]) = .ok (.str "summary text") := by
  refine ⟨?_, ?_, rfl⟩
  · refine (response_parsers_require_key_path _).2.2.1 ?_
    rintro ⟨v, o, m, xs, c0, ho, -, -, -, -⟩
    rw [show jGet (JValue.obj [("unexpected", JValue.str "shape")]) "output" = none from rfl] at ho
    exact Option.noConfusion ho
  · refine (response_parsers_require_key_path _).2.2.2 ?_
    rintro ⟨v, xs, c0, hc, -, -⟩
    rw [show jGet (JValue.obj [("unexpected", JValue.str "shape")]) "content" = none from rfl] at hc
    exact Option.noConfusion hc

/-! ## Theorems: the generated sales-analysis loop -/

theorem salesStep_updates_tracker (s : SalesState) (r : SalesRow)
    (hinv : s.max_revenue ≤ s.revenue) (hr : 0 < r.price * (r.units_sold : ℚ)) :
    (salesStep s r).max_revenue_date = r.date ∧
    (salesStep s r).max_revenue_product = r.product_id ∧
    (salesStep s r).max_revenue = (salesStep s r).revenue := by
  have hlt : s.max_revenue < s.revenue + r.price * (r.units_sold : ℚ) := by linarith
  simp [salesStep, hlt]

theorem salesFold_max_is_last (rows : List SalesRow) :
    ∀ s : SalesState, s.max_revenue ≤ s.revenue →
      (∀ r ∈ rows, 0 < r.price * (r.units_sold : ℚ)) → rows ≠ [] →
      ∃ last, rows.getLast? = some last ∧
        (rows.foldl salesStep s).max_revenue_date = last.date ∧
        (rows.foldl salesStep s).max_revenue_product = last.product_id := by
  induction rows with
  | nil => intro s _ _ hne; cases hne rfl
  | cons r rest ih =>
    intro s hinv hpos _
    have hr : 0 < r.price * (r.units_sold : ℚ) := hpos r (List.mem_cons_self r rest)
    obtain ⟨hd, hp, hm⟩ := salesStep_updates_tracker s r hinv hr
    cases rest with
    | nil =>
      exact ⟨r, rfl, by simpa using hd, by simpa using hp⟩
    | cons r2 rest2 =>
      have hpos2 : ∀ x ∈ r2 :: rest2, 0 < x.price * (x.units_sold : ℚ) := by
        intro x hx; exact hpos x (List.mem_cons_of_mem r hx)
      obtain ⟨last, hlast, h1, h2⟩ :=
        ih (salesStep s r) (le_of_eq hm) hpos2 (List.cons_ne_nil _ _)
      exact ⟨last, by rw [List.getLast?_cons_cons]; exact hlast, h1, h2⟩

/-- C10: the generated program's tracker compares the cumulative
running total `revenue` against `max_revenue` (not the current row's
own revenue), so on every CSV whose data rows all have positive
`price * units_sold` the running total strictly grows, the branch is
taken on every row, and after the loop `max_revenue_date` and
`max_revenue_product` are those of the last data row. -/
theorem sales_analysis_max_tracks_last_row (rows : List SalesRow)
    (hpos : ∀ r ∈ rows, 0 < r.price * (r.units_sold : ℚ)) (hne : rows ≠ []) :
    ∃ last, rows.getLast? = some last ∧
      (runSalesAnalysis rows).max_revenue_date = last.date ∧
      (runSalesAnalysis rows).max_revenue_product = last.product_id :=
  salesFold_max_is_last rows initialSalesState le_rfl hpos hne

theorem sales_analysis_max_tracks_last_row_witness :
    (runSalesAnalysis salesCsvRows).max_revenue_date = "2023-05-25" ∧
    (runSalesAnalysis salesCsvRows).max_revenue_product = "P002" := by
  obtain ⟨last, hlast, hdate, hprod⟩ := sales_analysis_max_tracks_last_row salesCsvRows
    (by intro r hr; fin_cases hr <;> norm_num) (List.cons_ne_nil _ _)
  have hrow : last = ⟨"2023-05-25", "P002", 60, 21⟩ :=
    Option.some.inj (hlast.symm.trans
      (show salesCsvRows.getLast? = some ⟨"2023-05-25", "P002", 60, 21⟩ from rfl))
  rw [hrow] at hdate hprod
  exact ⟨hdate, hprod⟩
